import Mathlib

/-!
Verification of the billing pass-through API handlers in
`src/saas/api/backend.py` (`RetrieveBankAPIView` and
`PaymentMethodDetailAPIView`) against their natural-language specification.

The handlers are shallowly embedded as pure Lean functions.  JSON-like
response bodies are association lists with Python-dict update semantics.
Each handler additionally returns the ordered trace of calls it makes
against the processor backend, so that claims of the form "never invokes
the processor" or "performs no other processor call" are statable.
-/

/-- JSON-ish values appearing in request/response bodies. -/
inductive Val where
  | str (s : String)
  | num (n : Int)
  | dict (entries : List (String × Val))

/-- A Python dictionary, modelled as an association list in insertion order. -/
abbrev Dict := List (String × Val)

/-- Assignment `d[k] = v` with Python-dict semantics: replace the value in
place (keeping the key's position) when the key exists, append otherwise. -/
def setKey : Dict → String → Val → Dict
  | [], k, v => [(k, v)]
  | (k', v') :: rest, k, v =>
    if k' = k then (k, v) :: rest else (k', v') :: setKey rest k v

/-- Python `d.update(u)`: assign every entry of `u` into `d`, in order. -/
def dictUpdate (d : Dict) (u : Dict) : Dict :=
  u.foldl (fun acc kv => setKey acc kv.1 kv.2) d

/-- Python `d.get(k)`: the value at the first occurrence of `k`, if any. -/
def dictGet : Dict → String → Option Val
  | [], _ => none
  | (k', v) :: rest, k => if k' = k then some v else dictGet rest k

/-- The keys of a dictionary, in order. -/
def dictKeys (d : Dict) : List String := d.map Prod.fst

theorem dictGet_setKey_same (d : Dict) (k : String) (v : Val) :
    dictGet (setKey d k v) k = some v := by
  induction d with
  | nil => simp [setKey, dictGet]
  | cons hd tl ih =>
    by_cases h : hd.1 = k
    · simp [setKey, dictGet, h]
    · simp [setKey, dictGet, h, ih]

theorem dictGet_setKey_other (d : Dict) (k k' : String) (v : Val)
    (hne : k' ≠ k) : dictGet (setKey d k v) k' = dictGet d k' := by
  have hk : ¬k = k' := fun h => hne h.symm
  induction d with
  | nil => simp [setKey, dictGet, hk]
  | cons hd tl ih =>
    by_cases h : hd.1 = k
    · simp [setKey, dictGet, h, hk, hne]
    · by_cases h' : hd.1 = k'
      · simp [setKey, dictGet, h, h', hne]
      · simp [setKey, dictGet, h, h', ih]

theorem dictUpdate_single (d : Dict) (k : String) (v : Val) :
    dictUpdate d [(k, v)] = setKey d k v := rfl

/-- An HTTP response: a JSON body together with a status code. -/
structure Response where
  body : Dict
  status : Nat

/-- A call made against the processor backend (through the `Organization`
entity or the broker's `processor_backend`), recorded with its arguments. -/
inductive ProcCall where
  | retrieveBank
  | retrieveCard
  | updateCard (token : String) (user : String)
  | deleteCard
  | getPaymentContext (organization : String) (provider : String) (broker : String)

/-- The exceptions `organization.update_card` may raise: `ProcessorError`
(from `saas.backends`, carrying the processor's reported reason) or any
other exception. -/
inductive UpdateExn where
  | processorError (message : String)
  | other (message : String)

/-- The organization (subscriber/provider) context a handler runs against.
`card` is the result of `retrieve_card()`, `bank` the result of
`retrieve_bank()`, and `updateCard` the behaviour of
`update_card(token, user)`. -/
structure Organization where
  slug : String
  bank : Dict
  card : Dict
  updateCard : String → String → Except UpdateExn Dict

/-- The site broker returned by `get_broker()`, together with its
`processor_backend.get_payment_context(organization, provider, broker)`
(arguments identified by slug). -/
structure Broker where
  slug : String
  getPaymentContext : String → String → String → Dict

/-- Outcome of running a handler: a response, a Django REST framework
`ValidationError` (rendered as an HTTP 400-class response carrying the
message), or an uncaught exception (rendered as an HTTP 500-class server
error by the framework). -/
inductive HandlerOutcome where
  | ok (response : Response)
  | validationError (detail : String)
  | uncaught (message : String)

/-- Confirmation message of `PaymentMethodDetailAPIView.update`
(`backend.py` line 226), spelled exactly as in the source. -/
def updatedDetail : String := "Your credit card on file was sucessfully updated."

/-- Confirmation message of `PaymentMethodDetailAPIView.destroy`
(`backend.py` line 198). -/
def destroyDetail : String := "Your credit card is no longer on file with us."

/-- Truthiness of `request.query_params.get(name, False)`: `False` when the
parameter is absent, otherwise the Python truthiness of the raw string
value (any non-empty string is truthy, including the string zero). -/
def queryTruthy : Option String → Bool
  | none => false
  | some s => !(s == "")

/-- `RetrieveBankAPIView.retrieve` (`backend.py` lines 76-79): responds with
`organization.retrieve_bank()` verbatim, status 200. -/
def RetrieveBankAPIView.retrieve (org : Organization) :
    Response × List ProcCall :=
  (⟨org.bank, 200⟩, [ProcCall.retrieveBank])

/-- `PaymentMethodDetailAPIView.retrieve` (`backend.py` lines 201-212):
fetches `organization.retrieve_card()`; when the `update` query parameter
is truthy it additionally fetches a payment context from
`get_broker().processor_backend.get_payment_context(organization,
provider=broker, broker=broker)` and merges it in under `processor`. -/
def PaymentMethodDetailAPIView.retrieve (broker : Broker) (org : Organization)
    (updateParam : Option String) : Response × List ProcCall :=
  let respData := org.card
  if queryTruthy updateParam then
    let ctx := broker.getPaymentContext org.slug broker.slug broker.slug
    (⟨dictUpdate respData [("processor", Val.dict ctx)], 200⟩,
      [ProcCall.retrieveCard,
       ProcCall.getPaymentContext org.slug broker.slug broker.slug])
  else
    (⟨respData, 200⟩, [ProcCall.retrieveCard])

/-- Modelled from the spec: `CardTokenSerializer` (its definition lives in
`saas/api/serializers.py`, which is not part of the excerpt).  Per the
spec, the PUT payload has a single required field `token` whose validation
is structural: the field must be present and be a string. -/
def validateCardToken (d : Dict) : Except String String :=
  match dictGet d "token" with
  | some (Val.str t) => Except.ok t
  | some _ => Except.error "token: Invalid value."
  | none => Except.error "token: This field is required."

/-- `PaymentMethodDetailAPIView.update` (`backend.py` lines 214-227): runs
the serializer with `raise_exception=True`, extracts `token`, calls
`organization.update_card(token, request.user)`; a `ProcessorError` is
re-raised as `ValidationError(err)`, any other exception propagates; on
success the result dictionary gets a confirmation `detail` entry and is
returned with status 200. -/
def PaymentMethodDetailAPIView.update (org : Organization) (user : String)
    (requestData : Dict) : HandlerOutcome × List ProcCall :=
  match validateCardToken requestData with
  | Except.error e => (HandlerOutcome.validationError e, [])
  | Except.ok token =>
    match org.updateCard token user with
    | Except.error (UpdateExn.processorError msg) =>
      (HandlerOutcome.validationError msg, [ProcCall.updateCard token user])
    | Except.error (UpdateExn.other msg) =>
      (HandlerOutcome.uncaught msg, [ProcCall.updateCard token user])
    | Except.ok newCard =>
      (HandlerOutcome.ok
        ⟨dictUpdate newCard [("detail", Val.str updatedDetail)], 200⟩,
       [ProcCall.updateCard token user])

/-- Modelled from the spec: `Organization.delete_card` (defined in
`saas/models.py`, not part of the excerpt) removes the payment method on
file at the processor; deleting when no card is on file is not an error. -/
def delete_card (cardOnFile : Option Dict) : Option Dict :=
  match cardOnFile with
  | _ => none

/-- `PaymentMethodDetailAPIView.destroy` (`backend.py` lines 194-199):
calls `organization.delete_card()` unconditionally and responds with a
fixed confirmation message, status 200. -/
def PaymentMethodDetailAPIView.destroy (cardOnFile : Option Dict) :
    Option Dict × Response :=
  (delete_card cardOnFile, ⟨[("detail", Val.str destroyDetail)], 200⟩)

/-- Modelled from the spec: the bank-account read view returned by
`Organization.retrieve_bank` (defined outside the excerpt) — `bank_name`,
masked `last4`, `balance_amount`, `balance_unit`. -/
def bankReadView (bankName last4 : String) (amount : Int) (unit : String) :
    Dict :=
  [("bank_name", Val.str bankName), ("last4", Val.str last4),
   ("balance_amount", Val.num amount), ("balance_unit", Val.str unit)]

/-- Modelled from the spec: the card read view returned by
`Organization.retrieve_card` (defined outside the excerpt) — masked card
suffix `last4` and expiration date `exp_date`. -/
def cardReadView (last4 expDate : String) : Dict :=
  [("last4", Val.str last4), ("exp_date", Val.str expDate)]

/-! Concrete instances used by the witness theorems. -/

/-- A broker whose payment context records the slugs it was scoped to. -/
def theBroker : Broker :=
  { slug := "the-broker"
    getPaymentContext := fun o p b =>
      [("STRIPE_INTENT_SECRET", Val.str (o ++ ":" ++ p ++ ":" ++ b))] }

/-- A subscriber organization whose processor accepts every token. -/
def orgXia : Organization :=
  { slug := "xia"
    bank := bankReadView "Stripe Test Bank" "***-htrTZ" 0 "usd"
    card := cardReadView "1234" "12/2019"
    updateCard := fun _ _ => Except.ok (cardReadView "4321" "12/2029") }

/-- An organization whose processor rejects the token "bad" with a
`ProcessorError` and fails any other token with a generic exception. -/
def orgRejecting : Organization :=
  { slug := "xia"
    bank := []
    card := []
    updateCard := fun t _ =>
      if t == "bad" then Except.error (UpdateExn.processorError "Card declined")
      else Except.error (UpdateExn.other "network failure") }

/-- An organization whose `update_card` result already carries a stale
`detail` entry, exercising the overwrite in the update handler. -/
def orgWithDetailCard : Organization :=
  { slug := "xia"
    bank := []
    card := []
    updateCard := fun _ _ => Except.ok
      [("last4", Val.str "1234"), ("detail", Val.str "stale")] }

/-- C1: for a PUT whose body validates, a `ProcessorError` raised by
`organization.update_card` is converted into a 400-class validation
failure carrying the processor's reported reason — never an uncaught
(500-class) failure — while any other exception is not caught locally and
propagates as a server-side failure. -/
theorem update_processorError_maps_to_400 (org : Organization)
    (user : String) (d : Dict) (t : String)
    (hv : validateCardToken d = Except.ok t) :
    (∀ m, org.updateCard t user = Except.error (UpdateExn.processorError m) →
      (PaymentMethodDetailAPIView.update org user d).1 =
        HandlerOutcome.validationError m ∧
      ∀ e, (PaymentMethodDetailAPIView.update org user d).1 ≠
        HandlerOutcome.uncaught e) ∧
    (∀ m, org.updateCard t user = Except.error (UpdateExn.other m) →
      (PaymentMethodDetailAPIView.update org user d).1 =
        HandlerOutcome.uncaught m) := by
  constructor
  · intro m hm
    simp [PaymentMethodDetailAPIView.update, hv, hm]
  · intro m hm
    simp [PaymentMethodDetailAPIView.update, hv, hm]

/-- Witness for C1: the token "bad" is rejected by `orgRejecting`'s
processor with reason "Card declined", and the handler returns exactly
that reason as a validation failure. -/
theorem update_processorError_maps_to_400_witness :
    validateCardToken [("token", Val.str "bad")] = Except.ok "bad" ∧
    orgRejecting.updateCard "bad" "donny" =
      Except.error (UpdateExn.processorError "Card declined") ∧
    (PaymentMethodDetailAPIView.update orgRejecting "donny"
      [("token", Val.str "bad")]).1 =
      HandlerOutcome.validationError "Card declined" :=
  ⟨rfl, rfl,
    ((update_processorError_maps_to_400 orgRejecting "donny"
      [("token", Val.str "bad")] "bad" rfl).1 "Card declined" rfl).1⟩

/-- Helper: the card-retrieve handler on a truthy `update` flag, with the
merge spelled out through `setKey`. -/
theorem retrieve_truthy_eq (broker : Broker) (org : Organization)
    (q : Option String) (hq : queryTruthy q = true) :
    PaymentMethodDetailAPIView.retrieve broker org q =
      (⟨setKey org.card "processor"
          (Val.dict (broker.getPaymentContext org.slug broker.slug
            broker.slug)), 200⟩,
       [ProcCall.retrieveCard,
        ProcCall.getPaymentContext org.slug broker.slug broker.slug]) := by
  simp [PaymentMethodDetailAPIView.retrieve, hq, dictUpdate_single]

/-- C2: on a GET with a truthy `update` query flag, the handler fetches a
payment context from the broker's processor backend — for the
organization, with the broker in both the `provider` and `broker` roles —
and merges it into the card view under the `processor` key. -/
theorem retrieve_update_flag_fetches_payment_context (broker : Broker)
    (org : Organization) (q : Option String) (hq : queryTruthy q = true) :
    PaymentMethodDetailAPIView.retrieve broker org q =
      (⟨dictUpdate org.card
          [("processor", Val.dict
            (broker.getPaymentContext org.slug broker.slug broker.slug))],
        200⟩,
       [ProcCall.retrieveCard,
        ProcCall.getPaymentContext org.slug broker.slug broker.slug]) := by
  simp [PaymentMethodDetailAPIView.retrieve, hq]

/-- Witness for C2 at `update=1` on a concrete broker and organization. -/
theorem retrieve_update_flag_fetches_payment_context_witness :
    queryTruthy (some "1") = true ∧
    PaymentMethodDetailAPIView.retrieve theBroker orgXia (some "1") =
      (⟨dictUpdate orgXia.card
          [("processor", Val.dict
            (theBroker.getPaymentContext orgXia.slug theBroker.slug
              theBroker.slug))],
        200⟩,
       [ProcCall.retrieveCard,
        ProcCall.getPaymentContext orgXia.slug theBroker.slug
          theBroker.slug]) :=
  ⟨rfl, retrieve_update_flag_fetches_payment_context theBroker orgXia
    (some "1") rfl⟩

/-- C3: a GET without an `update` query parameter responds with the card
read view unchanged and without a `processor` key (the card read view
itself has no such key), while a GET with `update=1` always responds with
a `processor` key present. -/
theorem retrieve_processor_key_presence (broker : Broker)
    (org : Organization)
    (hcard : dictGet org.card "processor" = none) :
    (PaymentMethodDetailAPIView.retrieve broker org none).1.body =
      org.card ∧
    dictGet (PaymentMethodDetailAPIView.retrieve broker org none).1.body
      "processor" = none ∧
    ∃ v, dictGet
      (PaymentMethodDetailAPIView.retrieve broker org (some "1")).1.body
      "processor" = some v := by
  refine ⟨rfl, hcard, ?_⟩
  rw [retrieve_truthy_eq broker org (some "1") rfl]
  exact ⟨_, dictGet_setKey_same _ _ _⟩

/-- Witness for C3 on a concrete organization whose card view is the
plain `last4`/`exp_date` read view. -/
theorem retrieve_processor_key_presence_witness :
    dictGet orgXia.card "processor" = none ∧
    (PaymentMethodDetailAPIView.retrieve theBroker orgXia none).1.body =
      orgXia.card ∧
    ∃ v, dictGet
      (PaymentMethodDetailAPIView.retrieve theBroker orgXia
        (some "1")).1.body "processor" = some v :=
  ⟨rfl,
   (retrieve_processor_key_presence theBroker orgXia rfl).1,
   (retrieve_processor_key_presence theBroker orgXia rfl).2.2⟩

/-- C4: a PUT whose token the processor accepts responds with status 200
and a body equal to the card view returned by `organization.update_card`
augmented with the exact confirmation message "Your credit card on file
was sucessfully updated." under `detail`; `last4` and `exp_date` come
through from the updated card view, and the confirmation is non-empty. -/
theorem update_accepted_returns_200 (org : Organization) (user : String)
    (d : Dict) (t : String) (c : Dict)
    (hv : validateCardToken d = Except.ok t)
    (hc : org.updateCard t user = Except.ok c) :
    (PaymentMethodDetailAPIView.update org user d).1 =
      HandlerOutcome.ok ⟨setKey c "detail" (Val.str updatedDetail), 200⟩ ∧
    dictGet (setKey c "detail" (Val.str updatedDetail)) "detail" =
      some (Val.str updatedDetail) ∧
    dictGet (setKey c "detail" (Val.str updatedDetail)) "last4" =
      dictGet c "last4" ∧
    dictGet (setKey c "detail" (Val.str updatedDetail)) "exp_date" =
      dictGet c "exp_date" ∧
    updatedDetail ≠ "" := by
  refine ⟨?_, dictGet_setKey_same _ _ _,
    dictGet_setKey_other _ _ _ _ (by decide),
    dictGet_setKey_other _ _ _ _ (by decide), by decide⟩
  simp [PaymentMethodDetailAPIView.update, hv, hc, dictUpdate_single]

/-- Witness for C4: `orgXia` accepts the token "xyz" and the handler
responds 200 with the updated card view plus the confirmation detail. -/
theorem update_accepted_returns_200_witness :
    validateCardToken [("token", Val.str "xyz")] = Except.ok "xyz" ∧
    orgXia.updateCard "xyz" "donny" =
      Except.ok (cardReadView "4321" "12/2029") ∧
    (PaymentMethodDetailAPIView.update orgXia "donny"
      [("token", Val.str "xyz")]).1 =
      HandlerOutcome.ok ⟨setKey (cardReadView "4321" "12/2029") "detail"
        (Val.str updatedDetail), 200⟩ :=
  ⟨rfl, rfl,
    (update_accepted_returns_200 orgXia "donny" [("token", Val.str "xyz")]
      "xyz" (cardReadView "4321" "12/2029") rfl rfl).1⟩

/-- C5: DELETE calls `organization.delete_card()` unconditionally and
responds 200 with the fixed body whatever the card state was; running it
a second time on the resulting state produces the very same response, so
deleting an absent card is never an error. -/
theorem destroy_unconditional_and_idempotent (cardOnFile : Option Dict) :
    (PaymentMethodDetailAPIView.destroy cardOnFile).1 =
      delete_card cardOnFile ∧
    (PaymentMethodDetailAPIView.destroy cardOnFile).2 =
      ⟨[("detail", Val.str destroyDetail)], 200⟩ ∧
    (PaymentMethodDetailAPIView.destroy cardOnFile).2.status = 200 ∧
    (PaymentMethodDetailAPIView.destroy
      (PaymentMethodDetailAPIView.destroy cardOnFile).1).2 =
      (PaymentMethodDetailAPIView.destroy cardOnFile).2 :=
  ⟨rfl, rfl, rfl, rfl⟩

/-- C6: a PUT whose body fails structural validation raises the
client-side validation failure and makes no processor call at all — the
call trace is empty, so `organization.update_card` is never invoked. -/
theorem update_invalid_body_never_calls_processor (org : Organization)
    (user : String) (d : Dict) (e : String)
    (hv : validateCardToken d = Except.error e) :
    PaymentMethodDetailAPIView.update org user d =
      (HandlerOutcome.validationError e, []) := by
  simp [PaymentMethodDetailAPIView.update, hv]

/-- Witness for C6: a body missing the `token` field is rejected without
any processor call. -/
theorem update_invalid_body_never_calls_processor_witness :
    validateCardToken [] =
      Except.error "token: This field is required." ∧
    PaymentMethodDetailAPIView.update orgXia "donny" [] =
      (HandlerOutcome.validationError "token: This field is required.",
        []) :=
  ⟨rfl, update_invalid_body_never_calls_processor orgXia "donny" []
    "token: This field is required." rfl⟩

/-- C7: GET on the bank endpoint responds with exactly
`organization.retrieve_bank()` as body, status 200, and its processor
call trace is the single read `retrieve_bank` — no other processor call
and no mutating call. -/
theorem retrieve_bank_verbatim (org : Organization) :
    RetrieveBankAPIView.retrieve org =
      (⟨org.bank, 200⟩, [ProcCall.retrieveBank]) :=
  rfl

/-- C8: when the organization's bank view is the spec's bank-account read
view, the GET bank response body carries exactly the four fields
`bank_name`, `last4`, `balance_amount`, `balance_unit`, in order. -/
theorem retrieve_bank_shape (org : Organization)
    (bankName last4 : String) (amount : Int) (unit : String)
    (hbank : org.bank = bankReadView bankName last4 amount unit) :
    dictKeys (RetrieveBankAPIView.retrieve org).1.body =
      ["bank_name", "last4", "balance_amount", "balance_unit"] := by
  simp [RetrieveBankAPIView.retrieve, hbank, bankReadView, dictKeys]

/-- Witness for C8 on `orgXia`'s concrete bank view. -/
theorem retrieve_bank_shape_witness :
    orgXia.bank = bankReadView "Stripe Test Bank" "***-htrTZ" 0 "usd" ∧
    dictKeys (RetrieveBankAPIView.retrieve orgXia).1.body =
      ["bank_name", "last4", "balance_amount", "balance_unit"] :=
  ⟨rfl, retrieve_bank_shape orgXia "Stripe Test Bank" "***-htrTZ" 0 "usd"
    rfl⟩

/-- C9: the `update` flag is tested for raw Python string truthiness, not
parsed as a boolean: any non-empty value — the string "0" included —
makes the `processor` key appear, while an absent or empty parameter
leaves it out. -/
theorem retrieve_update_param_string_truthiness (broker : Broker)
    (org : Organization) (s : String) (hs : s ≠ "")
    (hcard : dictGet org.card "processor" = none) :
    (∃ v, dictGet
      (PaymentMethodDetailAPIView.retrieve broker org (some s)).1.body
      "processor" = some v) ∧
    dictGet (PaymentMethodDetailAPIView.retrieve broker org none).1.body
      "processor" = none ∧
    dictGet
      (PaymentMethodDetailAPIView.retrieve broker org (some "")).1.body
      "processor" = none := by
  have hq : queryTruthy (some s) = true := by
    simp [queryTruthy, hs]
  refine ⟨?_, hcard, hcard⟩
  rw [retrieve_truthy_eq broker org (some s) hq]
  exact ⟨_, dictGet_setKey_same _ _ _⟩

/-- Witness for C9 at the value "0": `update=0` still yields a
`processor` key, and omitting the parameter (or passing it empty)
yields none. -/
theorem retrieve_update_param_string_truthiness_witness :
    ("0" : String) ≠ "" ∧
    dictGet orgXia.card "processor" = none ∧
    (∃ v, dictGet
      (PaymentMethodDetailAPIView.retrieve theBroker orgXia
        (some "0")).1.body "processor" = some v) ∧
    dictGet
      (PaymentMethodDetailAPIView.retrieve theBroker orgXia none).1.body
      "processor" = none :=
  ⟨by decide, rfl,
   (retrieve_update_param_string_truthiness theBroker orgXia "0"
     (by decide) rfl).1,
   (retrieve_update_param_string_truthiness theBroker orgXia "0"
     (by decide) rfl).2.1⟩

/-- C10: on a successful PUT, every key of the `update_card` result other
than `detail` is looked up unchanged in the response body, while `detail`
always maps to the fixed confirmation — overwriting any `detail` value
the processor's result already contained. -/
theorem update_success_overwrites_only_detail (org : Organization)
    (user : String) (d : Dict) (t : String) (c : Dict) (k : String)
    (hv : validateCardToken d = Except.ok t)
    (hc : org.updateCard t user = Except.ok c)
    (hk : k ≠ "detail") :
    (PaymentMethodDetailAPIView.update org user d).1 =
      HandlerOutcome.ok ⟨setKey c "detail" (Val.str updatedDetail), 200⟩ ∧
    dictGet (setKey c "detail" (Val.str updatedDetail)) k = dictGet c k ∧
    dictGet (setKey c "detail" (Val.str updatedDetail)) "detail" =
      some (Val.str updatedDetail) := by
  refine ⟨?_, dictGet_setKey_other _ _ _ _ hk, dictGet_setKey_same _ _ _⟩
  simp [PaymentMethodDetailAPIView.update, hv, hc, dictUpdate_single]

/-- Witness for C10: a processor result already holding a stale `detail`
entry keeps `last4` untouched and has its `detail` overwritten with the
fixed confirmation. -/
theorem update_success_overwrites_only_detail_witness :
    validateCardToken [("token", Val.str "tok")] = Except.ok "tok" ∧
    orgWithDetailCard.updateCard "tok" "donny" =
      Except.ok [("last4", Val.str "1234"), ("detail", Val.str "stale")] ∧
    dictGet (setKey [("last4", Val.str "1234"),
        ("detail", Val.str "stale")] "detail" (Val.str updatedDetail))
      "last4" =
      dictGet [("last4", Val.str "1234"), ("detail", Val.str "stale")]
        "last4" ∧
    dictGet (setKey [("last4", Val.str "1234"),
        ("detail", Val.str "stale")] "detail" (Val.str updatedDetail))
      "detail" = some (Val.str updatedDetail) :=
  ⟨rfl, rfl,
   (update_success_overwrites_only_detail orgWithDetailCard "donny"
     [("token", Val.str "tok")] "tok"
     [("last4", Val.str "1234"), ("detail", Val.str "stale")] "last4"
     rfl rfl (by decide)).2.1,
   (update_success_overwrites_only_detail orgWithDetailCard "donny"
     [("token", Val.str "tok")] "tok"
     [("last4", Val.str "1234"), ("detail", Val.str "stale")] "last4"
     rfl rfl (by decide)).2.2⟩
